import Mathlib

/-!
# Verification of the pairs-trading bot (`bot.py`)

Shallow embedding of the pairs-trading signal and position-management
engine of `bot.py` (class `PairsTradingBot` and `TradeLogger`), with the
theorems settling the frozen claims about it.

Conventions of the embedding:

* Python floats are modelled as exact rationals (`ℚ`); the spec itself
  treats float rounding as an open question, and no claim here is about
  float rounding behaviour.
* The pandas `rolling` statistics produce `NaN` before the window is
  full, and every comparison against `NaN` is false.  A possibly-`NaN`
  z-score is modelled as `Option ℚ`, with `none` for `NaN`, and the
  comparison helpers `nanLe`, `nanGe`, `nanAbsGe` return `false` on
  `none`, matching IEEE comparison semantics.
* Exchange calls (`place_order`, `futures_account_trades`) are external
  effects; their outcomes are supplied by explicit oracle structures
  (`EntryOracle`, `ExitOracle`).  A raised exception is an `OrderError`
  value; `none` means the call succeeded.
* Python methods mutate `self` in place; the embedding threads the
  mutable engine state (`BotState`) explicitly and returns the new state.
* Modelled from the spec: the module-level names `logger`,
  `LOT_SIZE_RULES`, `ROLLING_WINDOW`, `ENTRY_ZSCORE` and
  `PARTIAL_EXIT_PCT` are referenced by `bot.py` but their definitions are
  missing from the repository snapshot (the file says "Same ... as your
  original").  Following the spec, `logger` is the logging collaborator
  (modelled as an append-only `List String`), and the other names are the
  same configuration parameters that the constructor also stores on
  `self` (`ROLLING_WINDOW`, `ENTRY_ZSCORE`, `PARTIAL_EXIT_PCT`), with
  `LOT_SIZE_RULES` the per-instrument step/minimum table of §4.1,
  modelled as the `lotRules1`/`lotRules2` fields of `Config`.
-/

/-- Lot size rule for one instrument: one entry of the `LOT_SIZE_RULES`
table (`stepSize`, `minQty`).  Modelled from the spec: the table itself
("a step size S and minimum quantity M configured per instrument", §4.1)
is absent from the repository snapshot, so it is kept abstract and the
theorems quantify over it. -/
structure LotRules where
  stepSize : ℚ
  minQty : ℚ
deriving DecidableEq, Repr

/-- `PairsTradingBot.adjust_qty_to_lot_size` (bot.py lines 152-162).
`rules = none` models `LOT_SIZE_RULES.get(symbol)` returning nothing, in
which case the quantity is returned as is. -/
def adjust_qty_to_lot_size (rules : Option LotRules) (qty : ℚ) : ℚ :=
  match rules with
  | none => qty
  | some r =>
    let step := r.stepSize
    let min_qty := r.minQty
    let qty_adj := (⌊qty / step⌋ : ℚ) * step
    if qty_adj < min_qty then
      if qty ≥ min_qty then min_qty else 0
    else qty_adj

/-- `PairsTradingBot.calculate_equal_dollar_qtys` (bot.py lines 164-168). -/
def calculate_equal_dollar_qtys (dollar_amount price1 price2 : ℚ) : ℚ × ℚ :=
  (dollar_amount / price1, dollar_amount / price2)

/-- `PairsTradingBot.calculate_percent_spread` (bot.py lines 170-177). -/
def calculate_percent_spread (price1 qty1 price2 qty2 : ℚ) : ℚ :=
  let value1 := price1 * qty1
  let value2 := price2 * qty2
  let avg := (value1 + value2) / 2
  if avg = 0 then 0 else (value1 - value2) / avg

/-- The constructor parameters of `PairsTradingBot` (bot.py lines
108-132) that the decision logic reads, together with the two
`LOT_SIZE_RULES` entries for `symbol1`/`symbol2` (see the module
comment: the table is modelled from the spec). -/
structure Config where
  USDT_AMOUNT_PER_LEG : ℚ
  ROLLING_WINDOW : ℕ
  ENTRY_ZSCORE : ℚ
  EXIT_ZSCORE : ℚ
  STOP_LOSS_ZSCORE_THRESHOLD : ℚ
  PARTIAL_EXIT_PCT : ℚ
  MAX_HOLD_PERIOD_BARS : ℕ
  lotRules1 : Option LotRules
  lotRules2 : Option LotRules
deriving DecidableEq, Repr

/-- The `entry_data` dict stored on a position (bot.py lines 236-243). -/
structure EntryData where
  price1 : ℚ
  price2 : ℚ
  qty1 : ℚ
  qty2 : ℚ
  spread : ℚ
  zscore : Option ℚ
deriving DecidableEq, Repr

/-- The `market_data` dict stored on a position (bot.py lines 245-248);
rolling statistics may be `NaN`. -/
structure MarketData where
  spread_mean : Option ℚ
  spread_std : Option ℚ
deriving DecidableEq, Repr

/-- The `self.position` dict (bot.py lines 253-261).  `side` is kept as
the string the source stores and compares against (`"long"`/`"short"`). -/
structure Position where
  trade_id : String
  side : String
  entry_index : ℕ
  entry_data : EntryData
  market_data : MarketData
  partial_exited : Bool
  holding_bars : ℕ
deriving DecidableEq, Repr

/-- One row of `self.data_buffer` as returned by `update_market_data`
(`data.iloc[-1]`, bot.py line 204): prices, lot-adjusted quantities,
spread and its possibly-`NaN` rolling statistics. -/
structure CurrentData where
  price1 : ℚ
  price2 : ℚ
  qty1 : ℚ
  qty2 : ℚ
  spread : ℚ
  spread_mean : Option ℚ
  spread_std : Option ℚ
  spread_zscore : Option ℚ
deriving DecidableEq, Repr

/-- `z <= b` under IEEE semantics: false when `z` is `NaN`. -/
def nanLe (z : Option ℚ) (b : ℚ) : Bool :=
  match z with
  | none => false
  | some z => decide (z ≤ b)

/-- `z >= b` under IEEE semantics: false when `z` is `NaN`. -/
def nanGe (z : Option ℚ) (b : ℚ) : Bool :=
  match z with
  | none => false
  | some z => decide (b ≤ z)

/-- `abs(z) >= b` under IEEE semantics: false when `z` is `NaN`. -/
def nanAbsGe (z : Option ℚ) (b : ℚ) : Bool :=
  match z with
  | none => false
  | some z => decide (b ≤ |z|)

/-- `PairsTradingBot.check_exit_conditions` (bot.py lines 373-414).

The source mutates `self.position['holding_bars'] += 1` in place (line
379) before evaluating any condition; the embedding returns the updated
position together with the `(exit_triggered, reason, partial)` tuple.
The source also computes `spread_change` (lines 382-385) but never uses
it. -/
def check_exit_conditions (cfg : Config) (pos : Position) (cur : CurrentData) :
    Position × Bool × String × Bool :=
  let zscore := cur.spread_zscore
  let pos := { pos with holding_bars := pos.holding_bars + 1 }
  let _spread_change := cur.spread - pos.entry_data.spread
  -- Stop Loss
  if nanAbsGe zscore cfg.STOP_LOSS_ZSCORE_THRESHOLD then
    (pos, true, "STOP_LOSS", false)
  -- Exit Z-score
  else if pos.side == "long" && nanLe zscore cfg.EXIT_ZSCORE then
    (pos, true, "EXIT_ZSCORE", false)
  else if pos.side == "short" && nanGe zscore (-cfg.EXIT_ZSCORE) then
    (pos, true, "EXIT_ZSCORE", false)
  -- Max Hold Period
  else if decide (cfg.MAX_HOLD_PERIOD_BARS ≤ pos.holding_bars) then
    (pos, true, "MAX_HOLD_PERIOD", false)
  -- Partial Exit (if not already partially exited)
  else if !pos.partial_exited && pos.side == "long" && nanLe zscore 0 then
    (pos, true, "PARTIAL_EXIT", true)
  else if !pos.partial_exited && pos.side == "short" && nanGe zscore 0 then
    (pos, true, "PARTIAL_EXIT", true)
  else
    (pos, false, "", false)

/-- `PairsTradingBot.check_entry_conditions` (bot.py lines 416-427).
The module-level `ENTRY_ZSCORE` it reads is modelled from the spec as
the configured entry threshold (see the module comment). -/
def check_entry_conditions (cfg : Config) (cur : CurrentData) : Bool × String :=
  let zscore := cur.spread_zscore
  if nanLe zscore (-cfg.ENTRY_ZSCORE) then (true, "long")
  else if nanGe zscore cfg.ENTRY_ZSCORE then (true, "short")
  else (false, "")

/-- Python `round` to an integer: round half to even (banker's rounding),
used by `enter_position` via `round(..., ndigits)`. -/
def roundHalfEven (q : ℚ) : ℤ :=
  let f := ⌊q⌋
  let r := q - (f : ℚ)
  if r < 1 / 2 then f
  else if 1 / 2 < r then f + 1
  else if 2 ∣ f then f else f + 1

/-- Python `round(q, ndigits)` for `ndigits ≥ 0`. -/
def pyround (ndigits : ℕ) (q : ℚ) : ℚ :=
  (roundHalfEven (q * 10 ^ ndigits) : ℚ) / 10 ^ ndigits

/-- Result of `calculate_actual_pnl`: either the reconciled totals or the
error dictionary (`{'error': ...}`) the source returns on failure. -/
inductive PnlResult
  | ok (total_pnl total_fees : ℚ)
  | err (msg : String)
deriving DecidableEq, Repr

/-- The `exit_data` dict recorded on a full close (bot.py lines 319-325). -/
structure ExitData where
  price1 : ℚ
  price2 : ℚ
  spread : ℚ
  zscore : Option ℚ
  reason : String
deriving DecidableEq, Repr

/-- One journal entry of `TradeLogger.trades` (bot.py lines 66-83).
Order audit entries are kept by their `order_type` tag; the opaque
exchange response dicts are not modelled.  `timestamp` is the entry time
in seconds. -/
structure TradeRecord where
  trade_id : String
  timestamp : ℚ
  status : String
  symbol1 : String
  symbol2 : String
  side : String
  entry_data : Option EntryData
  market_data : Option MarketData
  orders : List String
  exit_data : Option ExitData
  pnl_analysis : Option PnlResult
deriving DecidableEq, Repr

/-- `TradeLogger.log_trade_entry` (bot.py lines 66-83): appends a fresh
`ENTERED` record. -/
def log_trade_entry (trades : List TradeRecord) (trade_id : String)
    (symbol1 symbol2 side : String) (entry_data : EntryData)
    (market_data : MarketData) (now : ℚ) : List TradeRecord :=
  trades ++ [{ trade_id := trade_id
               timestamp := now
               status := "ENTERED"
               symbol1 := symbol1
               symbol2 := symbol2
               side := side
               entry_data := some entry_data
               market_data := some market_data
               orders := []
               exit_data := none
               pnl_analysis := none }]

/-- `TradeLogger.log_order` (bot.py lines 85-94): appends the order to
the first record with this `trade_id` whose status is `ENTERED` (the
source `break`s after the first match). -/
def log_order (trades : List TradeRecord) (trade_id : String)
    (order_type : String) : List TradeRecord :=
  match trades with
  | [] => []
  | t :: ts =>
    if t.trade_id == trade_id && t.status == "ENTERED" then
      { t with orders := t.orders ++ [order_type] } :: ts
    else
      t :: log_order ts trade_id order_type

/-- `TradeLogger.log_trade_exit` (bot.py lines 96-104): marks the first
record with this `trade_id` `COMPLETED`, stores exit data and PnL and
saves — and then formats `pnl_analysis['total_pnl']` into a log line
(line 103), which raises `KeyError` when the PnL analysis is an error
dictionary.  The returned boolean is true when that exception escapes;
the journal mutation has already been persisted at that point. -/
def log_trade_exit (trades : List TradeRecord) (trade_id : String)
    (exit_data : ExitData) (pnl_analysis : PnlResult) :
    List TradeRecord × Bool :=
  match trades with
  | [] => ([], false)
  | t :: ts =>
    if t.trade_id == trade_id then
      ({ t with status := "COMPLETED"
                exit_data := some exit_data
                pnl_analysis := some pnl_analysis } :: ts,
       match pnl_analysis with
       | .ok _ _ => false
       | .err _ => true)
    else
      let res := log_trade_exit ts trade_id exit_data pnl_analysis
      (t :: res.1, res.2)

/-- A leg order failure (`place_order` raising, bot.py lines 21-38). -/
inductive OrderError
  | ORDER_REJECTED
  | NETWORK_ERROR
deriving DecidableEq, Repr

/-- Rendering of the exception used in the `logger.error` f-strings. -/
def OrderError.message : OrderError → String
  | ORDER_REJECTED => "ORDER_REJECTED"
  | NETWORK_ERROR => "NETWORK_ERROR"

/-- The mutable engine state threaded through the embedding:
`self.position`, the journal (`TradeLogger.trades`) and the log stream
(the `logger` collaborator, modelled from the spec — see the module
comment). -/
structure BotState where
  position : Option Position
  journal : List TradeRecord
  log : List String
deriving DecidableEq, Repr

/-- Outcomes of the two exchange leg orders of an entry attempt:
`none` means the order succeeded, `some e` that `place_order` raised. -/
structure EntryOracle where
  order1 : Option OrderError
  order2 : Option OrderError
deriving DecidableEq, Repr

/-- One exchange fill row as consumed by `calculate_actual_pnl`
(`time` converted to seconds, `realizedPnl`, `commission`). -/
structure Fill where
  time_s : ℚ
  realizedPnl : ℚ
  commission : ℚ
deriving DecidableEq, Repr

/-- Outcomes of the exchange calls made during an exit: the two leg
orders, whether the `get_trades` history fetch succeeds, and the fill
histories it returns for the two instruments. -/
structure ExitOracle where
  order1 : Option OrderError
  order2 : Option OrderError
  history_ok : Bool
  fills1 : List Fill
  fills2 : List Fill
deriving DecidableEq, Repr

/-- `PairsTradingBot.calculate_actual_pnl` (bot.py lines 336-371): the
history fetch happens first (a raised exception is caught and returned
as an error dictionary), then the journal lookup (first match), then
the ±1 hour time-window filter and the PnL/fee sums. -/
def calculate_actual_pnl (oc : ExitOracle) (trades : List TradeRecord)
    (trade_id : String) : PnlResult :=
  if !oc.history_ok then .err "history fetch failed"
  else
    match trades.find? (fun t => t.trade_id == trade_id) with
    | none => .err "Trade entry not found"
    | some trade_entry =>
      let entry_time := trade_entry.timestamp
      let rel := (oc.fills1 ++ oc.fills2).filter
        (fun f => decide (|f.time_s - entry_time| < 3600))
      .ok ((rel.map Fill.realizedPnl).sum) ((rel.map Fill.commission).sum)

/-- `PairsTradingBot.enter_position` (bot.py lines 206-266).

`trade_id` (time-derived in the source) and the wall clock `now` are
parameters; `buffer_len` is `len(self.data_buffer)`.  The `try` block
places leg 1, logs it, places leg 2, logs it, appends the journal entry
and only then creates `self.position`; any raised order error jumps to
the `except` branch, which only logs the failure (lines 265-266) and
leaves every piece of state created so far as it is. -/
def enter_position (st : BotState) (side : String)
    (cur : CurrentData) (oc : EntryOracle) (trade_id : String)
    (symbol1 symbol2 : String) (buffer_len : ℕ) (now : ℚ) : BotState :=
  let qty1 := pyround 3 cur.qty1
  let qty2 := pyround 0 cur.qty2
  match oc.order1 with
  | some e => { st with log := st.log ++ ["Failed to enter position: " ++ e.message] }
  | none =>
    let order_type1 := if side == "long" then "ENTRY_LEG1_LONG" else "ENTRY_LEG1_SHORT"
    let st := { st with journal := log_order st.journal trade_id order_type1 }
    match oc.order2 with
    | some e => { st with log := st.log ++ ["Failed to enter position: " ++ e.message] }
    | none =>
      let order_type2 := if side == "long" then "ENTRY_LEG2_SHORT" else "ENTRY_LEG2_LONG"
      let st := { st with journal := log_order st.journal trade_id order_type2 }
      let entry_data : EntryData :=
        { price1 := cur.price1, price2 := cur.price2
          qty1 := qty1, qty2 := qty2
          spread := cur.spread, zscore := cur.spread_zscore }
      let market_data : MarketData :=
        { spread_mean := cur.spread_mean, spread_std := cur.spread_std }
      let st := { st with journal := log_trade_entry st.journal trade_id symbol1 symbol2 side entry_data market_data now }
      let newpos : Position :=
        { trade_id := trade_id
          side := side
          entry_index := buffer_len - 1
          entry_data := entry_data
          market_data := market_data
          partial_exited := false
          holding_bars := 0 }
      { st with position := some newpos }

/-- `PairsTradingBot.exit_position` (bot.py lines 268-334).

On a partial exit the stored quantities are scaled down and the
partial-exit flag is set (lines 281-286) *before* any order is placed;
the module-level `PARTIAL_EXIT_PCT` read there is modelled from the
spec as the configured fraction (see the module comment).  Each leg
order may raise, jumping to the `except` branch which only logs (lines
333-334).  On a full close, `log_trade_exit` may raise `KeyError` when
the PnL analysis is an error dictionary; that exception skips
`self.position = None` (line 328), so the position is not cleared. -/
def exit_position (cfg : Config) (st : BotState) (reason : String)
    (cur : CurrentData) (pf : Bool) (oc : ExitOracle) : BotState :=
  match st.position with
  | none => st
  | some pos0 =>
    let trade_id := pos0.trade_id
    let side := pos0.side
    let original_qty1 := pos0.entry_data.qty1
    let original_qty2 := pos0.entry_data.qty2
    let exit_qty1 := if pf then original_qty1 * cfg.PARTIAL_EXIT_PCT else pos0.entry_data.qty1
    let exit_qty2 := if pf then original_qty2 * cfg.PARTIAL_EXIT_PCT else pos0.entry_data.qty2
    let pos := if pf then
        { pos0 with
          entry_data := { pos0.entry_data with
            qty1 := pos0.entry_data.qty1 * (1 - cfg.PARTIAL_EXIT_PCT)
            qty2 := pos0.entry_data.qty2 * (1 - cfg.PARTIAL_EXIT_PCT) }
          partial_exited := true }
      else pos0
    let st := { st with position := some pos }
    let _exit_qty1 := adjust_qty_to_lot_size cfg.lotRules1 exit_qty1
    let _exit_qty2 := adjust_qty_to_lot_size cfg.lotRules2 exit_qty2
    match oc.order1 with
    | some e => { st with log := st.log ++ ["Failed to exit position: " ++ e.message] }
    | none =>
      let order_type1 :=
        if side == "long" then (if pf then "PARTIAL_EXIT_LEG1_SELL" else "EXIT_LEG1_SELL")
        else (if pf then "PARTIAL_EXIT_LEG1_BUY" else "EXIT_LEG1_BUY")
      let st := { st with journal := log_order st.journal trade_id order_type1 }
      match oc.order2 with
      | some e => { st with log := st.log ++ ["Failed to exit position: " ++ e.message] }
      | none =>
        let order_type2 :=
          if side == "long" then (if pf then "PARTIAL_EXIT_LEG2_BUY" else "EXIT_LEG2_BUY")
          else (if pf then "PARTIAL_EXIT_LEG2_SELL" else "EXIT_LEG2_SELL")
        let st := { st with journal := log_order st.journal trade_id order_type2 }
        if pf then st
        else
          let pnl_analysis := calculate_actual_pnl oc st.journal trade_id
          let exit_data : ExitData :=
            { price1 := cur.price1, price2 := cur.price2
              spread := cur.spread, zscore := cur.spread_zscore
              reason := reason }
          let res := log_trade_exit st.journal trade_id exit_data pnl_analysis
          let st := { st with journal := res.1 }
          if res.2 then
            { st with log := st.log ++ ["Failed to exit position: KeyError total_pnl"] }
          else
            { st with position := none }

/-- The last `n` elements of a list (the trailing rolling window). -/
def lastN (n : ℕ) (l : List ℚ) : List ℚ :=
  l.drop (l.length - n)

/-- The rolling mean of the *last* row of
`data['spread'].rolling(ROLLING_WINDOW).mean()` (bot.py line 199):
`NaN` (`none`) until the window is full, otherwise the mean of the last
`w` spreads. -/
def rolling_last_mean (w : ℕ) (spreads : List ℚ) : Option ℚ :=
  if spreads.length < w ∨ w = 0 then none
  else some ((lastN w spreads).sum / (w : ℚ))

/-- The rolling sample standard deviation of the last row of
`data['spread'].rolling(ROLLING_WINDOW).std()` (bot.py line 200):
`NaN` (`none`) until the window is full (pandas uses `ddof = 1`, so a
window of 1 is also `NaN`), otherwise the square root of the sample
variance of the last `w` spreads.  The square root is not rational, so
it is supplied as an abstract function `sqrtFn`; no claim settled here
depends on its values. -/
def rolling_last_std (sqrtFn : ℚ → ℚ) (w : ℕ) (spreads : List ℚ) : Option ℚ :=
  if spreads.length < w ∨ w ≤ 1 then none
  else
    let win := lastN w spreads
    let m := win.sum / (w : ℚ)
    some (sqrtFn (((win.map (fun x => (x - m) ^ 2)).sum) / ((w : ℚ) - 1)))

/-- Per-row sizing and spread computation of `update_market_data`
(bot.py lines 190-196): raw equal-dollar quantities, lot-size
adjustment, percent spread.  Returns `(qty1, qty2, spread)`. -/
def spread_row (cfg : Config) (p : ℚ × ℚ) : ℚ × ℚ × ℚ :=
  let raw := calculate_equal_dollar_qtys cfg.USDT_AMOUNT_PER_LEG p.1 p.2
  let qty1 := adjust_qty_to_lot_size cfg.lotRules1 raw.1
  let qty2 := adjust_qty_to_lot_size cfg.lotRules2 raw.2
  (qty1, qty2, calculate_percent_spread p.1 qty1 p.2 qty2)

/-- `PairsTradingBot.update_market_data` (bot.py lines 179-204),
restricted to the returned last row (`data.iloc[-1]`, `none` for an
empty frame, where the source would raise an `IndexError`).

`prices` is the aligned pair of close-price series after the `dropna`
join.  The module-level `ROLLING_WINDOW` read on lines 199-200 is
modelled from the spec as the configured rolling window (see the module
comment).  A zero rolling standard deviation forces every window value
to equal the mean, so the z-score numerator is zero there and
`0.0 / 0.0` is `NaN` (`none`). -/
def update_market_data (cfg : Config) (sqrtFn : ℚ → ℚ)
    (prices : List (ℚ × ℚ)) : Option CurrentData :=
  match prices.getLast? with
  | none => none
  | some pl =>
    let spreads := prices.map (fun p => (spread_row cfg p).2.2)
    let m := rolling_last_mean cfg.ROLLING_WINDOW spreads
    let sd := rolling_last_std sqrtFn cfg.ROLLING_WINDOW spreads
    let row := spread_row cfg pl
    let z : Option ℚ :=
      match m with
      | none => none
      | some mv =>
        match sd with
        | none => none
        | some sdv => if sdv = 0 then none else some ((row.2.2 - mv) / sdv)
    some { price1 := pl.1
           price2 := pl.2
           qty1 := row.1
           qty2 := row.2.1
           spread := row.2.2
           spread_mean := m
           spread_std := sd
           spread_zscore := z }

/-! ## Concrete fixtures used by the claim theorems and witnesses -/

/-- The constructor default configuration of `PairsTradingBot` (bot.py
lines 108-116): entry_z 1.5, exit_z 0.5, stop_z 3.0, partial fraction
0.5, max hold 48 bars, rolling window 48; no lot rules configured. -/
def defaultCfg : Config :=
  { USDT_AMOUNT_PER_LEG := 4000
    ROLLING_WINDOW := 48
    ENTRY_ZSCORE := 3 / 2
    EXIT_ZSCORE := 1 / 2
    STOP_LOSS_ZSCORE_THRESHOLD := 3
    PARTIAL_EXIT_PCT := 1 / 2
    MAX_HOLD_PERIOD_BARS := 48
    lotRules1 := none
    lotRules2 := none }

/-- A sample open position (entered at z-score −1.6) with the given
side, partial-exit flag and bars held. -/
def samplePosition (side : String) (flag : Bool) (bars : ℕ) : Position :=
  { trade_id := "long_1700000000"
    side := side
    entry_index := 0
    entry_data :=
      { price1 := 2000, price2 := 100, qty1 := 2, qty2 := 40
        spread := 0, zscore := some (-8 / 5) }
    market_data := { spread_mean := some 0, spread_std := some (1 / 100) }
    partial_exited := flag
    holding_bars := bars }

/-- A sample market-data row carrying the given z-score. -/
def sampleCur (z : Option ℚ) : CurrentData :=
  { price1 := 2000, price2 := 100, qty1 := 2, qty2 := 40
    spread := 0, spread_mean := some 0, spread_std := some (1 / 100)
    spread_zscore := z }

/-! ## Claims about the signal evaluator -/

/-- Claim C1 (code bug).  The claim states that a long position exits
with reason `EXIT_ZSCORE` exactly when `zscore ≥ −exit_z`, so in the
scenario (entry_z 1.5, exit_z 0.5, stop_z 3.0, long, z-scores −1.6,
−0.8, −0.3) the full close comes only on the −0.3 tick after 2 ticks
held.  The code tests `zscore <= self.EXIT_ZSCORE` for longs (bot.py
line 393), so on the very first tick after entry, at z-score −0.8, it
already returns a full close with reason `EXIT_ZSCORE` (holding_bars 1)
even though −0.8 ≥ −0.5 is false. -/
theorem c1_exit_zscore_condition_code_bug :
    (check_exit_conditions defaultCfg (samplePosition "long" false 0)
        (sampleCur (some (-4 / 5)))).2 = (true, "EXIT_ZSCORE", false)
    ∧ (check_exit_conditions defaultCfg (samplePosition "long" false 0)
        (sampleCur (some (-4 / 5)))).1.holding_bars = 1
    ∧ ¬ (-(1 / 2) : ℚ) ≤ (-4 / 5 : ℚ) := by
  refine ⟨?_, ?_, by norm_num⟩ <;>
    norm_num [check_exit_conditions, defaultCfg, samplePosition, sampleCur,
      nanAbsGe, nanLe, nanGe, abs, max_def]

/-- Claim C6: when the stop-loss condition `|zscore| ≥ stop_z` holds on
a tick with a position, the verdict is a full close with reason
`STOP_LOSS` — never `EXIT_ZSCORE` — regardless of side, even when the
z-score reversion-exit condition of the code (long: `z ≤ exit_z`,
short: `z ≥ −exit_z`) holds simultaneously: the stop-loss check comes
first (bot.py line 388) and short-circuits the later checks. -/
theorem c6_stop_loss_precedence (cfg : Config) (pos : Position)
    (cur : CurrentData) (z : ℚ)
    (hz : cur.spread_zscore = some z)
    (hstop : cfg.STOP_LOSS_ZSCORE_THRESHOLD ≤ |z|)
    (hrev : (pos.side = "long" ∧ z ≤ cfg.EXIT_ZSCORE)
            ∨ (pos.side = "short" ∧ -cfg.EXIT_ZSCORE ≤ z)) :
    (check_exit_conditions cfg pos cur).2 = (true, "STOP_LOSS", false) := by
  simp [check_exit_conditions, hz, nanAbsGe, hstop]

/-- Witness for C6 at a concrete tick: long position, z-score −3.5,
stop_z 3.0, exit_z 0.5 — both conditions hold and the verdict is
`STOP_LOSS`. -/
theorem c6_stop_loss_precedence_witness :
    (defaultCfg.STOP_LOSS_ZSCORE_THRESHOLD ≤ |(-7 / 2 : ℚ)|)
    ∧ ((samplePosition "long" false 0).side = "long"
        ∧ (-7 / 2 : ℚ) ≤ defaultCfg.EXIT_ZSCORE)
    ∧ (check_exit_conditions defaultCfg (samplePosition "long" false 0)
        (sampleCur (some (-7 / 2)))).2 = (true, "STOP_LOSS", false) :=
  ⟨by norm_num [defaultCfg, abs, max_def], ⟨rfl, by norm_num [defaultCfg]⟩,
    c6_stop_loss_precedence defaultCfg (samplePosition "long" false 0)
      (sampleCur (some (-7 / 2))) (-7 / 2) rfl
      (by norm_num [defaultCfg, abs, max_def])
      (Or.inl ⟨rfl, by norm_num [defaultCfg]⟩)⟩

/-- Claim C10, amended: evaluating the exit verdict is *not* pure — on
every call with a position it increments the position's bars-held
counter by exactly one (bot.py line 379) — but that increment is its
only state change: the returned position is the input position with
`holding_bars` bumped, whatever the verdict; the entry evaluator takes
only the market row and configuration and touches no state at all. -/
theorem c10_exit_evaluation_only_increments_bars (cfg : Config)
    (pos : Position) (cur : CurrentData) :
    (check_exit_conditions cfg pos cur).1
      = { pos with holding_bars := pos.holding_bars + 1 } := by
  simp only [check_exit_conditions]
  repeat' split
  all_goals rfl

/-- Counterexample for claim C10 as stated: evaluating the exit verdict
on a concrete position with 0 bars held returns a mutated position
(1 bar held), so the Signal Evaluator does not leave the Position
unchanged. -/
theorem c10_pure_evaluator_counterexample :
    (check_exit_conditions defaultCfg (samplePosition "long" false 0)
        (sampleCur (some 0))).1 ≠ samplePosition "long" false 0 := by
  norm_num [check_exit_conditions, defaultCfg, samplePosition, sampleCur,
    nanAbsGe, nanLe, nanGe, abs, max_def, Position.mk.injEq]

/-! ## Claims about the position state machine and order coordination -/

/-- Once a position's partial-exit flag is set, re-evaluating the exit
conditions can neither produce another `PARTIAL_EXIT` verdict (both
partial branches are guarded by `not self.position['partial_exited']`,
bot.py line 406) nor clear the flag. -/
theorem check_exit_keeps_flag (cfg : Config) (pos : Position)
    (cur : CurrentData) (h : pos.partial_exited = true) :
    (check_exit_conditions cfg pos cur).2.2.1 ≠ "PARTIAL_EXIT"
    ∧ (check_exit_conditions cfg pos cur).1.partial_exited = true := by
  simp only [check_exit_conditions]
  repeat' split
  all_goals simp_all

/-- Claim C5: a partial exit happens at most once per position
lifetime.  If `exit_position` runs as a partial exit (or the flag was
already set) and the position survives, the surviving position has its
partial-exit flag set, and re-evaluating the exit conditions on any
later tick never yields a second `PARTIAL_EXIT` verdict, nor does it
ever reset the flag. -/
theorem c5_partial_exit_at_most_once (cfg : Config) (st : BotState)
    (pos p' : Position) (reason : String) (cur cur' : CurrentData)
    (pf : Bool) (oc : ExitOracle)
    (hpos : st.position = some pos)
    (hflag : pf = true ∨ pos.partial_exited = true)
    (hres : (exit_position cfg st reason cur pf oc).position = some p') :
    p'.partial_exited = true
    ∧ (check_exit_conditions cfg p' cur').2.2.1 ≠ "PARTIAL_EXIT"
    ∧ (check_exit_conditions cfg p' cur').1.partial_exited = true := by
  have hp : p'.partial_exited = true := by
    obtain ⟨o1, o2, hok, f1, f2⟩ := oc
    simp only [exit_position, hpos] at hres
    cases pf with
    | true =>
      cases o1 <;> cases o2 <;> simp_all <;> (subst hres; rfl)
    | false =>
      rcases hflag with h | h
      · exact absurd h (by simp)
      · cases o1 <;> cases o2 <;>
          simp only [apply_ite BotState.position] at hres <;>
          (try split at hres) <;> simp_all
  exact ⟨hp, (check_exit_keeps_flag cfg p' cur' hp).1,
    (check_exit_keeps_flag cfg p' cur' hp).2⟩

/-- An exit oracle on which every exchange call succeeds. -/
def okOracle : ExitOracle :=
  { order1 := none, order2 := none, history_ok := true, fills1 := [], fills2 := [] }

/-- Engine state holding an open long position with 3 bars held. -/
def c5St : BotState :=
  { position := some (samplePosition "long" false 3), journal := [], log := [] }

/-- The stored position after a successful partial exit of `c5St`'s
position at fraction 0.5: quantities halved, flag set. -/
def c5PosAfter : Position :=
  { trade_id := "long_1700000000"
    side := "long"
    entry_index := 0
    entry_data :=
      { price1 := 2000, price2 := 100, qty1 := 1, qty2 := 20
        spread := 0, zscore := some (-8 / 5) }
    market_data := { spread_mean := some 0, spread_std := some (1 / 100) }
    partial_exited := true
    holding_bars := 3 }

/-- Witness for C5 at a concrete partial exit with both legs
succeeding: the surviving position has the flag set, and re-evaluating
the exit conditions at z-score 0 (which would fire the partial-exit
branch on an unflagged long position) does not yield `PARTIAL_EXIT`. -/
theorem c5_partial_exit_at_most_once_witness :
    (c5St.position = some (samplePosition "long" false 3))
    ∧ (true = true ∨ (samplePosition "long" false 3).partial_exited = true)
    ∧ ((exit_position defaultCfg c5St "PARTIAL_EXIT" (sampleCur (some 0)) true
          okOracle).position = some c5PosAfter)
    ∧ (c5PosAfter.partial_exited = true
       ∧ (check_exit_conditions defaultCfg c5PosAfter
            (sampleCur (some 0))).2.2.1 ≠ "PARTIAL_EXIT"
       ∧ (check_exit_conditions defaultCfg c5PosAfter
            (sampleCur (some 0))).1.partial_exited = true) :=
  ⟨rfl, Or.inl rfl,
    by norm_num [exit_position, defaultCfg, c5St, samplePosition, sampleCur,
      okOracle, c5PosAfter, Position.mk.injEq, EntryData.mk.injEq,
      MarketData.mk.injEq],
    c5_partial_exit_at_most_once defaultCfg c5St (samplePosition "long" false 3)
      c5PosAfter "PARTIAL_EXIT" (sampleCur (some 0)) (sampleCur (some 0)) true
      okOracle rfl (Or.inl rfl)
      (by norm_num [exit_position, defaultCfg, c5St, samplePosition, sampleCur,
        okOracle, c5PosAfter, Position.mk.injEq, EntryData.mk.injEq,
        MarketData.mk.injEq])⟩

/-- Claim C3: if on an entry attempt the leg-A order succeeds and the
leg-B order fails, no Position is created — the engine stays FLAT
(`position = none`) — and the failure is reported through the logging
collaborator (the `except` branch, bot.py lines 265-266) instead of a
position being created silently. -/
theorem c3_entry_leg2_failure_no_position (st : BotState) (side : String)
    (cur : CurrentData) (e : OrderError) (oc : EntryOracle)
    (trade_id symbol1 symbol2 : String) (buffer_len : ℕ) (now : ℚ)
    (hflat : st.position = none) (h1 : oc.order1 = none)
    (h2 : oc.order2 = some e) :
    (enter_position st side cur oc trade_id symbol1 symbol2 buffer_len
        now).position = none
    ∧ ("Failed to enter position: " ++ e.message)
        ∈ (enter_position st side cur oc trade_id symbol1 symbol2 buffer_len
            now).log := by
  simp only [enter_position, h1, h2]
  exact ⟨hflat, by simp⟩

/-- An entry oracle on which leg A fills and leg B fails. -/
def c3Oc : EntryOracle :=
  { order1 := none, order2 := some OrderError.NETWORK_ERROR }

/-- A FLAT engine state. -/
def flatSt : BotState := { position := none, journal := [], log := [] }

/-- Witness for C3 at a concrete hazard: leg A filled, leg B hit a
network error — the state stays FLAT and the failure is in the log. -/
theorem c3_entry_leg2_failure_no_position_witness :
    (flatSt.position = none) ∧ (c3Oc.order1 = none)
    ∧ (c3Oc.order2 = some OrderError.NETWORK_ERROR)
    ∧ ((enter_position flatSt "long" (sampleCur (some (-8 / 5))) c3Oc
          "long_1700000000" "ETHUSDT" "SOLUSDT" 58 0).position = none
       ∧ ("Failed to enter position: " ++ OrderError.NETWORK_ERROR.message)
          ∈ (enter_position flatSt "long" (sampleCur (some (-8 / 5))) c3Oc
              "long_1700000000" "ETHUSDT" "SOLUSDT" 58 0).log) :=
  ⟨rfl, rfl, rfl,
    c3_entry_leg2_failure_no_position flatSt "long" (sampleCur (some (-8 / 5)))
      OrderError.NETWORK_ERROR c3Oc "long_1700000000" "ETHUSDT" "SOLUSDT" 58 0
      rfl rfl rfl⟩

/-- An exit oracle on which the first leg order is rejected. -/
def c2Oc : ExitOracle :=
  { order1 := some OrderError.ORDER_REJECTED, order2 := none
    history_ok := true, fills1 := [], fills2 := [] }

/-- Claim C2 (code bug).  The claim states that if either leg order of
an exit fails, the stored Position is left entirely unchanged.  On a
partial exit the code scales the stored leg quantities down and sets
the partial-exit flag (bot.py lines 284-286) *before* placing any
order, and the `except` branch performs no rollback: with leg 1
rejected and no order filled, the stored position nevertheless comes
out with halved quantities and `partial_exited = True`. -/
theorem c2_partial_exit_mutates_on_leg_failure :
    (exit_position defaultCfg c5St "PARTIAL_EXIT" (sampleCur (some 0)) true
        c2Oc).position = some c5PosAfter
    ∧ (exit_position defaultCfg c5St "PARTIAL_EXIT" (sampleCur (some 0)) true
        c2Oc).position ≠ some (samplePosition "long" false 3) := by
  constructor <;>
    norm_num [exit_position, defaultCfg, c5St, c2Oc, samplePosition, sampleCur,
      c5PosAfter, Position.mk.injEq, EntryData.mk.injEq, MarketData.mk.injEq]

/-- The journal record of the open trade used in the C4 scenario. -/
def c4Rec : TradeRecord :=
  { trade_id := "long_1700000000"
    timestamp := 0
    status := "ENTERED"
    symbol1 := "ETHUSDT"
    symbol2 := "SOLUSDT"
    side := "long"
    entry_data := some (samplePosition "long" false 5).entry_data
    market_data := some (samplePosition "long" false 5).market_data
    orders := []
    exit_data := none
    pnl_analysis := none }

/-- Engine state holding an open long position whose trade is journaled. -/
def c4St : BotState :=
  { position := some (samplePosition "long" false 5), journal := [c4Rec], log := [] }

/-- An exit oracle on which both leg orders succeed but the exchange
trade-history fetch fails, so PnL reconciliation returns an error
dictionary. -/
def c4Oc : ExitOracle :=
  { order1 := none, order2 := none, history_ok := false, fills1 := [], fills2 := [] }

/-- Claim C4 (code bug).  The claim states that after a full exit with
both legs succeeding the trade is marked COMPLETED and the Position is
cleared even when PnL reconciliation fails.  When
`calculate_actual_pnl` returns an error dictionary, `log_trade_exit`
marks the record COMPLETED and saves it, but then raises `KeyError`
formatting `pnl_analysis['total_pnl']` (bot.py line 103); the exception
skips `self.position = None` (line 328), so the position is *not*
cleared: the journal says COMPLETED with the error payload while the
engine still holds the position. -/
theorem c4_reconciliation_failure_position_not_cleared :
    ((exit_position defaultCfg c4St "EXIT_ZSCORE" (sampleCur (some (-1 / 4)))
        false c4Oc).journal.map TradeRecord.status = ["COMPLETED"])
    ∧ ((exit_position defaultCfg c4St "EXIT_ZSCORE" (sampleCur (some (-1 / 4)))
        false c4Oc).journal.map TradeRecord.pnl_analysis
          = [some (PnlResult.err "history fetch failed")])
    ∧ (exit_position defaultCfg c4St "EXIT_ZSCORE" (sampleCur (some (-1 / 4)))
        false c4Oc).position = some (samplePosition "long" false 5) := by
  refine ⟨?_, ?_, ?_⟩ <;>
    norm_num [exit_position, calculate_actual_pnl, log_order, log_trade_exit,
      defaultCfg, c4St, c4Rec, samplePosition, sampleCur, c4Oc, List.find?]

/-! ## Claims about the lot quantizer -/

/-- Modelled from the spec (§4.1), for the refinement comparison of
claim C7, with the no-rules case as amended: computes
`floor(rawQty / S) * S`; if the result is below M, returns M when
rawQty ≥ M, else 0; instruments without configured rules pass rawQty
through unchanged (the source applies no rounding there). -/
def lot_quantizer_spec (rules : Option LotRules) (rawQty : ℚ) : ℚ :=
  match rules with
  | none => rawQty
  | some r =>
    let q := (⌊rawQty / r.stepSize⌋ : ℚ) * r.stepSize
    if r.minQty ≤ q then q
    else if r.minQty ≤ rawQty then r.minQty
    else 0

/-- Counterexample for claim C7 as stated: there is no fixed decimal
precision `p` at which the no-rules branch returns the raw quantity
rounded — the source returns the quantity exactly (bot.py line 156),
and `1/3` is not representable at any decimal precision. -/
theorem c7_no_rules_rounding_counterexample :
    ¬ ∃ p : ℕ, ∀ qty : ℚ, 0 ≤ qty →
      ∃ k : ℤ, adjust_qty_to_lot_size none qty = (k : ℚ) / 10 ^ p := by
  rintro ⟨p, hp⟩
  obtain ⟨k, hk⟩ := hp (1 / 3) (by norm_num)
  have hk' : (1 : ℚ) / 3 = (k : ℚ) / 10 ^ p := hk
  have h10 : ((10 : ℚ) ^ p) ≠ 0 := by positivity
  rw [div_eq_div_iff (by norm_num) h10] at hk'
  have h2 : (10 : ℤ) ^ p = k * 3 := by
    rw [one_mul] at hk'
    exact_mod_cast hk'
  have h3 : (3 : ℤ) ∣ 10 ^ p := ⟨k, by linarith⟩
  have h4 : (3 : ℤ) ∣ 10 := Int.prime_three.dvd_of_dvd_pow h3
  norm_num at h4

/-- Claim C7, amended: for every instrument with configured rules and
raw quantity ≥ 0, `adjust_qty_to_lot_size` returns
`floor(rawQty / S) * S`, falling back to M when that is below M and
rawQty ≥ M, and to 0 otherwise; for an instrument without configured
rules it returns rawQty exactly, with no rounding applied. -/
theorem c7_lot_quantizer_matches_spec (rules : Option LotRules) (qty : ℚ)
    (hq : 0 ≤ qty) :
    adjust_qty_to_lot_size rules qty = lot_quantizer_spec rules qty := by
  cases rules with
  | none => rfl
  | some r =>
    simp only [adjust_qty_to_lot_size, lot_quantizer_spec, ge_iff_le]
    by_cases h : (⌊qty / r.stepSize⌋ : ℚ) * r.stepSize < r.minQty
    · rw [if_pos h, if_neg (not_le.mpr h)]
    · rw [if_neg h, if_pos (not_lt.mp h)]

/-- Witness for C7 at a concrete input: step 0.1, minimum 0.5, raw
quantity 0.345 — both sides quantize to 0 (cannot size the position). -/
theorem c7_lot_quantizer_matches_spec_witness :
    ((0 : ℚ) ≤ 345 / 1000)
    ∧ adjust_qty_to_lot_size (some { stepSize := 1 / 10, minQty := 1 / 2 })
        (345 / 1000)
      = lot_quantizer_spec (some { stepSize := 1 / 10, minQty := 1 / 2 })
          (345 / 1000)
    ∧ adjust_qty_to_lot_size (some { stepSize := 1 / 10, minQty := 1 / 2 })
        (345 / 1000) = 0 :=
  ⟨by norm_num,
    c7_lot_quantizer_matches_spec (some { stepSize := 1 / 10, minQty := 1 / 2 })
      (345 / 1000) (by norm_num),
    by norm_num [adjust_qty_to_lot_size]⟩

/-- Claim C8: lot quantization is idempotent,
`quantize(quantize(x, i), i) = quantize(x, i)`, for every quantity and
every instrument whose configured step size is positive (instruments
without rules pass quantities through, so idempotence is immediate
there; a non-positive step would make the source divide by zero). -/
theorem c8_quantize_idempotent (rules : Option LotRules) (qty : ℚ)
    (hstep : ∀ r, rules = some r → 0 < r.stepSize) :
    adjust_qty_to_lot_size rules (adjust_qty_to_lot_size rules qty)
      = adjust_qty_to_lot_size rules qty := by
  cases rules with
  | none => rfl
  | some r =>
    have hs : 0 < r.stepSize := hstep r rfl
    have hs0 : r.stepSize ≠ 0 := ne_of_gt hs
    have hmul : ∀ k : ℤ,
        (⌊((k : ℚ) * r.stepSize) / r.stepSize⌋ : ℚ) * r.stepSize
          = (k : ℚ) * r.stepSize := by
      intro k
      rw [mul_div_assoc, div_self hs0, mul_one, Int.floor_intCast]
    simp only [adjust_qty_to_lot_size, ge_iff_le]
    by_cases h1 : (⌊qty / r.stepSize⌋ : ℚ) * r.stepSize < r.minQty
    · by_cases h2 : r.minQty ≤ qty
      · rw [if_pos h1, if_pos h2]
        have hfl : (⌊r.minQty / r.stepSize⌋ : ℚ) * r.stepSize ≤ r.minQty := by
          calc (⌊r.minQty / r.stepSize⌋ : ℚ) * r.stepSize
              ≤ (r.minQty / r.stepSize) * r.stepSize :=
                mul_le_mul_of_nonneg_right (Int.floor_le _) (le_of_lt hs)
            _ = r.minQty := div_mul_cancel₀ _ hs0
        by_cases h3 : (⌊r.minQty / r.stepSize⌋ : ℚ) * r.stepSize < r.minQty
        · rw [if_pos h3, if_pos (le_refl r.minQty)]
        · rw [if_neg h3]
          exact le_antisymm hfl (not_lt.mp h3)
      · rw [if_pos h1, if_neg h2]
        have h0 : ((⌊(0 : ℚ) / r.stepSize⌋ : ℚ) * r.stepSize) = 0 := by
          rw [zero_div, Int.floor_zero, Int.cast_zero, zero_mul]
        rw [h0]
        by_cases h4 : (0 : ℚ) < r.minQty
        · rw [if_pos h4, if_neg (not_le.mpr h4)]
        · rw [if_neg h4]
    · rw [if_neg h1, hmul ⌊qty / r.stepSize⌋, if_neg h1]

/-- Witness for C8 at a concrete input: step 0.1, minimum 0.5, quantity
0.345 — quantizing once gives 0 and quantizing again still gives 0. -/
theorem c8_quantize_idempotent_witness :
    ((0 : ℚ) < 1 / 10)
    ∧ adjust_qty_to_lot_size (some { stepSize := 1 / 10, minQty := 1 / 2 })
        (adjust_qty_to_lot_size
          (some { stepSize := 1 / 10, minQty := 1 / 2 }) (345 / 1000))
      = adjust_qty_to_lot_size (some { stepSize := 1 / 10, minQty := 1 / 2 })
          (345 / 1000) :=
  ⟨by norm_num,
    c8_quantize_idempotent (some { stepSize := 1 / 10, minQty := 1 / 2 })
      (345 / 1000) (fun r h => by cases h; norm_num)⟩

/-! ## Claim about insufficient history -/

/-- Claim C9: with fewer price samples than the rolling window, the
rolling statistics of the last row are undefined (`NaN`), hence its
z-score is undefined, and `check_entry_conditions` produces no entry
verdict — neither long nor short — on that tick.  Stated for every
abstract square-root function, since the claim does not depend on the
standard deviation's value. -/
theorem c9_insufficient_history_no_entry (cfg : Config) (sqrtFn : ℚ → ℚ)
    (prices : List (ℚ × ℚ)) (cur : CurrentData)
    (hlen : prices.length < cfg.ROLLING_WINDOW)
    (hupd : update_market_data cfg sqrtFn prices = some cur) :
    cur.spread_zscore = none
    ∧ check_entry_conditions cfg cur = (false, "") := by
  have hz : cur.spread_zscore = none := by
    unfold update_market_data at hupd
    cases hgl : prices.getLast? with
    | none => rw [hgl] at hupd; exact absurd hupd (by simp)
    | some pl =>
      rw [hgl] at hupd
      have hm : rolling_last_mean cfg.ROLLING_WINDOW
          (prices.map fun p => (spread_row cfg p).2.2) = none := by
        unfold rolling_last_mean
        rw [if_pos]
        exact Or.inl (by simpa using hlen)
      simp only [hm] at hupd
      injection hupd with h
      subst h
      rfl
  refine ⟨hz, ?_⟩
  simp [check_entry_conditions, hz, nanLe, nanGe]

/-- The default configuration with a rolling window of 3 bars. -/
def c9Cfg : Config := { defaultCfg with ROLLING_WINDOW := 3 }

/-- The market-data row produced from the single price sample
(100, 50) with a $4000 budget: quantities 40 and 80, spread 0, all
rolling statistics undefined. -/
def c9Cur : CurrentData :=
  { price1 := 100, price2 := 50, qty1 := 40, qty2 := 80, spread := 0
    spread_mean := none, spread_std := none, spread_zscore := none }

/-- Witness for C9 on a one-sample history against a window of 3: the
z-score is undefined and no entry verdict is produced. -/
theorem c9_insufficient_history_no_entry_witness :
    ([((100 : ℚ), (50 : ℚ))].length < c9Cfg.ROLLING_WINDOW)
    ∧ (update_market_data c9Cfg id [((100 : ℚ), (50 : ℚ))] = some c9Cur)
    ∧ (c9Cur.spread_zscore = none
       ∧ check_entry_conditions c9Cfg c9Cur = (false, "")) :=
  ⟨by norm_num [c9Cfg, defaultCfg],
    by norm_num [update_market_data, spread_row, calculate_equal_dollar_qtys,
      calculate_percent_spread, adjust_qty_to_lot_size, rolling_last_mean,
      rolling_last_std, lastN, c9Cfg, defaultCfg, c9Cur, CurrentData.mk.injEq],
    c9_insufficient_history_no_entry c9Cfg id [((100 : ℚ), (50 : ℚ))] c9Cur
      (by norm_num [c9Cfg, defaultCfg])
      (by norm_num [update_market_data, spread_row, calculate_equal_dollar_qtys,
        calculate_percent_spread, adjust_qty_to_lot_size, rolling_last_mean,
        rolling_last_std, lastN, c9Cfg, defaultCfg, c9Cur,
        CurrentData.mk.injEq])⟩
